import Mathlib

/-!
Shallow embedding of the Gym-Manager backend (Express server, `server.js`):
the authentication middleware `authenticateUser` and the workout/exercise
route handlers, modelled as pure functions over an explicit store state.

The external data store (Supabase/PostgREST) is modelled per its client
contract as used by the handlers: `.eq` filters rows, `.order` sorts,
`.single()` yields the unique matching row or `null` (no row → no data, no
error), inserts append a row, deletes remove matching rows (with the
store-level cascade from workouts to their exercises), and `.select()` with
an embedded `count` returns the count of related rows.  Store/provider
failures (the `if (error) throw error` branches) are outside the modelled
state and are not needed by any claim below.

Request bodies are JSON, so body fields are modelled as JavaScript values
(`JSValue`), with JavaScript truthiness and the `parseInt`/`parseFloat`
coercions the handlers apply (decimal notation; exponent/hex forms are not
modelled, no handler input uses them).
-/

namespace GymManager

/-- A JavaScript number: NaN or an exact value (modelled as a rational;
the handlers only ever produce values via `parseInt`/`parseFloat`). -/
inductive JSNum where
  | nan : JSNum
  | val : Rat → JSNum
deriving DecidableEq

/-- A JSON/JavaScript value as it appears in a request body field;
`undefined` stands for an absent field. -/
inductive JSValue where
  | undefined : JSValue
  | null : JSValue
  | bool : Bool → JSValue
  | num : JSNum → JSValue
  | str : String → JSValue
deriving DecidableEq

/-- JavaScript truthiness: `undefined`, `null`, `false`, `0`, `NaN` and `""`
are falsy, everything else is truthy. -/
def truthy : JSValue → Bool
  | .undefined => false
  | .null => false
  | .bool b => b
  | .num .nan => false
  | .num (.val q) => q != 0
  | .str s => s != ""

/-- Numeric value of a list of decimal digit characters. -/
def decimalVal (ds : List Char) : Nat :=
  ds.foldl (fun acc c => acc * 10 + (c.toNat - 48)) 0

/-- Strip an optional leading sign; returns (isNegative, rest). -/
def stripSign : List Char → Bool × List Char
  | '-' :: t => (true, t)
  | '+' :: t => (false, t)
  | t => (false, t)

/-- `parseInt` (radix 10) on a character list: optional sign, then the
longest prefix of decimal digits; NaN when there is no digit. -/
def parseIntChars (cs : List Char) : JSNum :=
  let (neg, rest) := stripSign cs
  let ds := rest.takeWhile (·.isDigit)
  if ds.isEmpty then .nan
  else
    let mag : Rat := mkRat (decimalVal ds : Int) 1
    .val (if neg then -mag else mag)

/-- `parseFloat` on a character list: optional sign, integer digits, then an
optional fraction; NaN when there is no digit at all. -/
def parseFloatChars (cs : List Char) : JSNum :=
  let (neg, rest) := stripSign cs
  let ds := rest.takeWhile (·.isDigit)
  let rest2 := rest.dropWhile (·.isDigit)
  let fs := match rest2 with
    | '.' :: t => t.takeWhile (·.isDigit)
    | _ => []
  if ds.isEmpty && fs.isEmpty then .nan
  else
    let mag : Rat := mkRat (decimalVal ds * 10 ^ fs.length + decimalVal fs : Int) (10 ^ fs.length)
    .val (if neg then -mag else mag)

/-- Truncation of a rational toward zero (`Int.tdiv` is T-division). -/
def truncRat (q : Rat) : Int := Int.tdiv q.num (q.den : Int)

/-- `parseInt(x)` as applied by the handlers: the argument is converted to a
string, leading whitespace dropped, and the leading integer prefix parsed.
For a numeric value in decimal notation this is truncation toward zero; the
string forms of `undefined`, `null` and booleans do not start with a digit,
hence NaN. -/
def parseIntJS : JSValue → JSNum
  | .str s => parseIntChars (s.data.dropWhile (·.isWhitespace))
  | .num (.val q) => .val (mkRat (truncRat q) 1)
  | _ => .nan

/-- `parseFloat(x)` as applied by the handlers, analogously. -/
def parseFloatJS : JSValue → JSNum
  | .str s => parseFloatChars (s.data.dropWhile (·.isWhitespace))
  | .num (.val q) => .val q
  | _ => .nan

/-- A persisted workout row (`workouts` table).  `workout_date` is kept as
its ISO date string, whose lexicographic order is the chronological order
the store uses; `created_at` is a timestamp. -/
structure Workout where
  id : Nat
  user_id : Nat
  name : String
  workout_date : String
  notes : Option String
  created_at : Nat
deriving DecidableEq

/-- A persisted exercise row (`exercises` table); `sets`, `reps`, `weight`
hold whatever the numeric coercions produced (possibly NaN). -/
structure Exercise where
  id : Nat
  workout_id : Nat
  user_id : Nat
  exercise_name : JSValue
  sets : JSNum
  reps : JSNum
  weight : JSNum
  created_at : Nat
deriving DecidableEq

/-- The external store's state. -/
structure DB where
  workouts : List Workout
  exercises : List Exercise
deriving DecidableEq

/-- An HTTP JSON response: status with a payload, or status with an
`{error: message}` body. -/
inductive ApiResult (α : Type) where
  | ok : Nat → α → ApiResult α
  | err : Nat → String → ApiResult α
deriving DecidableEq

/-! ## Authentication middleware (`authenticateUser`) -/

/-- Outcome of `supabaseAdmin.auth.getUser(token)`: the awaited call either
throws, or returns `{data: {user}, error}` (modelled as an error flag and an
optional resolved user id). -/
inductive IdLookup where
  | threw : IdLookup
  | returned : Bool → Option Nat → IdLookup

/-- Outcome of the middleware: a rejection response, or the resolved user id
together with the token forwarded to the request-scoped store client. -/
inductive AuthOutcome where
  | reject : Nat → String → AuthOutcome
  | authed : Nat → String → AuthOutcome
deriving DecidableEq

/-- JavaScript `s.split(' ')`: split on the literal space character,
keeping empty segments. -/
def splitOnSpace : List Char → List (List Char)
  | [] => [[]]
  | c :: t =>
    let r := splitOnSpace t
    if c = ' ' then [] :: r
    else (c :: r.headD []) :: r.tail

/-- `authHeader.split(' ')[1]`, with JavaScript's falsiness of both
`undefined` (no second segment) and `""` collapsed to `""`. -/
def tokenOf (h : String) : String := ⟨(splitOnSpace h.data).getD 1 []⟩

/-- The auth middleware: reject 401 on a missing (or empty, hence falsy)
header; reject 401 on a missing second space-separated segment; pass the
segment to the identity service; 500 if that call throws; 401 if it reports
an error or resolves no user; otherwise attach the user and proceed. -/
def authenticateUser (header : Option String) (getUser : String → IdLookup) : AuthOutcome :=
  match header with
  | none => .reject 401 "No token provided"
  | some h =>
    if h = "" then .reject 401 "No token provided"
    else if tokenOf h = "" then .reject 401 "Invalid authorization format"
    else
      match getUser (tokenOf h) with
      | .threw => .reject 500 "Authentication failed"
      | .returned true _ => .reject 401 "Invalid token"
      | .returned false none => .reject 401 "Invalid token"
      | .returned false (some uid) => .authed uid (tokenOf h)

/-! ## Workout routes -/

/-- Lexicographic strict comparison of character lists (the order of the
stored ISO date strings). -/
def charListLt : List Char → List Char → Bool
  | [], [] => false
  | [], _ :: _ => true
  | _ :: _, [] => false
  | a :: as, b :: bs => if a < b then true else if b < a then false else charListLt as bs

/-- Strict order on the stored date strings. -/
def dateLt (a b : String) : Bool := charListLt a.data b.data

/-- The store's `ORDER BY workout_date DESC, created_at DESC` comparator:
`a` sorts no later than `b`. -/
def workoutBefore (a b : Workout) : Bool :=
  dateLt b.workout_date a.workout_date ||
    (a.workout_date == b.workout_date && decide (b.created_at ≤ a.created_at))

/-- The JavaScript `c || 0` applied to the returned count. -/
def orZero (n : Nat) : Nat := if n = 0 then 0 else n

/-- One element of the GET /api/workouts response after the handler's
transform adding `exercise_count`. -/
structure WorkoutListItem where
  workout : Workout
  exercise_count : Nat
deriving DecidableEq

/-- Insert a workout into a list already ordered by `workoutBefore`. -/
def insertWorkout (a : Workout) : List Workout → List Workout
  | [] => [a]
  | b :: l => if workoutBefore a b then a :: b :: l else b :: insertWorkout a l

/-- The store's sort realizing `ORDER BY workout_date DESC, created_at DESC`
(insertion sort by `workoutBefore`). -/
def sortWorkouts : List Workout → List Workout
  | [] => []
  | a :: l => insertWorkout a (sortWorkouts l)

/-- GET /api/workouts: select workouts with the embedded exercise count,
filtered by `user_id = caller`, ordered by workout_date descending then
created_at descending; map each row to carry `exercises[0]?.count || 0`. -/
def listWorkouts (db : DB) (uid : Nat) : ApiResult (List WorkoutListItem) :=
  let owned := db.workouts.filter (fun w => w.user_id == uid)
  let ordered := sortWorkouts owned
  .ok 200 (ordered.map (fun w =>
    { workout := w
      exercise_count := orZero (db.exercises.filter (fun e => e.workout_id == w.id)).length }))

/-- GET /api/workouts/:id response payload: the workout with its nested
exercises. -/
structure WorkoutDetail where
  workout : Workout
  exercises : List Exercise
deriving DecidableEq

/-- GET /api/workouts/:id: select the workout with `id = :id` and
`user_id = caller` with its nested exercises; 404 when no row comes back. -/
def getWorkout (db : DB) (uid wid : Nat) : ApiResult WorkoutDetail :=
  match (db.workouts.filter (fun w => w.id == wid && w.user_id == uid)).head? with
  | none => .err 404 "Workout not found"
  | some w => .ok 200 ⟨w, db.exercises.filter (fun e => e.workout_id == w.id)⟩

/-- POST /api/workouts body: `{name, workout_date, notes}`, each possibly
absent (these fields are strings on this route's JSON surface). -/
structure WorkoutBody where
  name : Option String
  workout_date : Option String
  notes : Option String

/-- JavaScript falsiness of an optional string field: absent or empty. -/
def falsyOpt : Option String → Bool
  | none => true
  | some s => s == ""

/-- The handler's `notes: notes || null`: a falsy notes value is stored as
null. -/
def jsNotes : Option String → Option String
  | none => none
  | some s => if s = "" then none else some s

/-- POST /api/workouts: `!name || !workout_date` → 400 without touching the
store; otherwise insert `{user_id, name, workout_date, notes: notes || null}`
and return the created row with 201. -/
def createWorkout (db : DB) (uid : Nat) (body : WorkoutBody) (newId now : Nat) :
    ApiResult Workout × DB :=
  if falsyOpt body.name || falsyOpt body.workout_date then
    (.err 400 "Name and date are required", db)
  else
    let w : Workout :=
      { id := newId
        user_id := uid
        name := body.name.getD ""
        workout_date := body.workout_date.getD ""
        notes := jsNotes body.notes
        created_at := now }
    (.ok 201 w, { db with workouts := db.workouts ++ [w] })

/-- DELETE /api/workouts/:id: delete rows with `id = :id` and
`user_id = caller` (the store cascades to the deleted workouts' exercises);
always answer 200 with the success message, whether or not a row matched. -/
def deleteWorkout (db : DB) (uid wid : Nat) : ApiResult String × DB :=
  let removed := db.workouts.filter (fun w => w.id == wid && w.user_id == uid)
  (.ok 200 "Workout deleted successfully",
    { workouts := db.workouts.filter (fun w => !(w.id == wid && w.user_id == uid))
      exercises := db.exercises.filter (fun e => !removed.any (fun w => w.id == e.workout_id)) })

/-! ## Exercise routes -/

/-- POST/PATCH exercise body: `{exercise_name, sets, reps, weight}`, each a
JSON value, `undefined` when absent. -/
structure ExerciseBody where
  exercise_name : JSValue
  sets : JSValue
  reps : JSValue
  weight : JSValue
deriving DecidableEq

/-- The row inserted/written by the exercise handlers: `sets` and `reps` go
through `parseInt`, `weight` through `parseFloat`. -/
def coercedExercise (body : ExerciseBody) (newId wid uid now : Nat) : Exercise :=
  { id := newId
    workout_id := wid
    user_id := uid
    exercise_name := body.exercise_name
    sets := parseIntJS body.sets
    reps := parseIntJS body.reps
    weight := parseFloatJS body.weight
    created_at := now }

/-- POST /api/workouts/:workoutId/exercises: 400 when `exercise_name`,
`sets` or `reps` is falsy or `weight === undefined`; then verify a workout
with `id = :workoutId` and `user_id = caller` exists (404 otherwise); then
insert the coerced row and return it with 201. -/
def createExercise (db : DB) (uid wid : Nat) (body : ExerciseBody) (newId now : Nat) :
    ApiResult Exercise × DB :=
  if truthy body.exercise_name = false ∨ truthy body.sets = false ∨
      truthy body.reps = false ∨ body.weight = JSValue.undefined then
    (.err 400 "All fields are required", db)
  else
    match (db.workouts.filter (fun w => w.id == wid && w.user_id == uid)).head? with
    | none => (.err 404 "Workout not found", db)
    | some _ =>
      let e := coercedExercise body newId wid uid now
      (.ok 201 e, { db with exercises := db.exercises ++ [e] })

/-- The field overwrite PATCH /api/exercises/:id applies to a row. -/
def overwriteExercise (body : ExerciseBody) (e : Exercise) : Exercise :=
  { e with
    exercise_name := body.exercise_name
    sets := parseIntJS body.sets
    reps := parseIntJS body.reps
    weight := parseFloatJS body.weight }

/-- PATCH /api/exercises/:id: no body validation; update every row with
`id = :id` — the query carries no `user_id` filter — and answer 200 with the
updated row (or null when none matched).  The caller's identity plays no
role, hence the unused `_uid`. -/
def patchExercise (db : DB) (_uid eid : Nat) (body : ExerciseBody) :
    ApiResult (Option Exercise) × DB :=
  let exercises2 := db.exercises.map (fun e => if e.id = eid then overwriteExercise body e else e)
  (.ok 200 (exercises2.filter (fun e => e.id == eid)).head?,
    { db with exercises := exercises2 })

/-- DELETE /api/exercises/:id: delete rows with `id = :id` — again with no
`user_id` filter — and always answer 200 with the success message. -/
def deleteExercise (db : DB) (_uid eid : Nat) : ApiResult String × DB :=
  (.ok 200 "Exercise deleted successfully",
    { db with exercises := db.exercises.filter (fun e => !(e.id == eid)) })

/-! ## Concrete fixtures used to instantiate the theorems -/

/-- A store holding one workout of user 1 with one exercise. -/
def dbFix : DB :=
  { workouts := [⟨1, 1, "Leg Day", "2024-01-01", none, 0⟩]
    exercises := [⟨10, 1, 1, .str "Squat", .val 3, .val 10, .val 100, 0⟩] }

/-- An exercise row owned by user 1. -/
def exVictim : Exercise := ⟨5, 9, 1, .str "Squat", .val 3, .val 10, .val 100, 0⟩

/-- A PATCH body sent by a different caller. -/
def bodyAttack : ExerciseBody := ⟨.str "Hacked", .num (.val 1), .num (.val 1), .num (.val 1)⟩

/-! ## Helper lemmas -/

theorem splitOnSpace_no_space {cs : List Char} (h : ' ' ∉ cs) : splitOnSpace cs = [cs] := by
  induction cs with
  | nil => rfl
  | cons c t ih =>
    have hc : c ≠ ' ' := fun hceq => h (hceq ▸ List.mem_cons_self c t)
    have ht : ' ' ∉ t := fun hmem => h (List.mem_cons_of_mem c hmem)
    simp [splitOnSpace, hc, ih ht]

theorem tokenOf_no_space {h : String} (hns : ' ' ∉ h.data) : tokenOf h = "" := by
  simp [tokenOf, splitOnSpace_no_space hns]

theorem ownedFilter_eq_nil {db : DB} {uid wid : Nat}
    (hnone : ∀ w ∈ db.workouts, ¬(w.id = wid ∧ w.user_id = uid)) :
    db.workouts.filter (fun w => w.id == wid && w.user_id == uid) = [] := by
  rw [List.filter_eq_nil_iff]
  intro a ha hc
  rw [Bool.and_eq_true, beq_iff_eq, beq_iff_eq] at hc
  exact hnone a ha hc

theorem notMatchFilter_eq_self {db : DB} {uid wid : Nat}
    (hnone : ∀ w ∈ db.workouts, ¬(w.id = wid ∧ w.user_id = uid)) :
    db.workouts.filter (fun w => !(w.id == wid && w.user_id == uid)) = db.workouts := by
  rw [List.filter_eq_self]
  intro a ha
  by_cases h1 : a.id = wid
  · by_cases h2 : a.user_id = uid
    · exact absurd ⟨h1, h2⟩ (hnone a ha)
    · simp [h1, h2]
  · simp [h1]

theorem deleteWorkout_noop {db : DB} {uid wid : Nat}
    (hnone : ∀ w ∈ db.workouts, ¬(w.id = wid ∧ w.user_id = uid)) :
    (deleteWorkout db uid wid).2 = db := by
  have hstep : (deleteWorkout db uid wid).2 =
      { workouts := db.workouts.filter (fun w => !(w.id == wid && w.user_id == uid))
        exercises := db.exercises.filter (fun e =>
          !(db.workouts.filter (fun w => w.id == wid && w.user_id == uid)).any
            (fun w => w.id == e.workout_id)) } := rfl
  rw [hstep, ownedFilter_eq_nil hnone, notMatchFilter_eq_self hnone]
  simp

theorem createExercise_notfound {db : DB} {uid wid : Nat} {body : ExerciseBody} {newId now : Nat}
    (hval : ¬(truthy body.exercise_name = false ∨ truthy body.sets = false ∨
      truthy body.reps = false ∨ body.weight = JSValue.undefined))
    (hnone : ∀ w ∈ db.workouts, ¬(w.id = wid ∧ w.user_id = uid)) :
    createExercise db uid wid body newId now = (.err 404 "Workout not found", db) := by
  simp [createExercise, hval, ownedFilter_eq_nil hnone]

theorem createExercise_success {db : DB} {uid wid : Nat} {body : ExerciseBody} {newId now : Nat}
    (hval : ¬(truthy body.exercise_name = false ∨ truthy body.sets = false ∨
      truthy body.reps = false ∨ body.weight = JSValue.undefined))
    (hex : ∃ w ∈ db.workouts, w.id = wid ∧ w.user_id = uid) :
    createExercise db uid wid body newId now =
      (.ok 201 (coercedExercise body newId wid uid now),
       { db with exercises := db.exercises ++ [coercedExercise body newId wid uid now] }) := by
  obtain ⟨w, hw, hid, huid⟩ := hex
  have hne : db.workouts.filter (fun x => x.id == wid && x.user_id == uid) ≠ [] := by
    intro hnil
    rw [List.filter_eq_nil_iff] at hnil
    exact hnil w hw (by simp [hid, huid])
  cases hfil : db.workouts.filter (fun x => x.id == wid && x.user_id == uid) with
  | nil => exact absurd hfil hne
  | cons a t => simp [createExercise, hval, hfil]

theorem charListLt_irrefl (as : List Char) : charListLt as as = false := by
  induction as with
  | nil => rfl
  | cons a t ih => simp [charListLt, lt_irrefl, ih]

theorem charListLt_trans : ∀ {as bs cs : List Char},
    charListLt as bs = true → charListLt bs cs = true → charListLt as cs = true := by
  intro as
  induction as with
  | nil =>
    intro bs cs h1 h2
    cases bs with
    | nil => simp [charListLt] at h1
    | cons b bt =>
      cases cs with
      | nil => simp [charListLt] at h2
      | cons c ct => simp [charListLt]
  | cons a at2 ih =>
    intro bs cs h1 h2
    cases bs with
    | nil => simp [charListLt] at h1
    | cons b bt =>
      cases cs with
      | nil => simp [charListLt] at h2
      | cons c ct =>
        by_cases hab : a < b
        · by_cases hbc : b < c
          · simp [charListLt, lt_trans hab hbc]
          · by_cases hcb : c < b
            · simp [charListLt, hbc, hcb] at h2
            · have hbceq : b = c := le_antisymm (not_lt.mp hcb) (not_lt.mp hbc)
              subst hbceq
              simp [charListLt, hab]
        · by_cases hba : b < a
          · simp [charListLt, hab, hba] at h1
          · have habeq : a = b := le_antisymm (not_lt.mp hba) (not_lt.mp hab)
            subst habeq
            rw [charListLt, if_neg hab, if_neg hba] at h1
            by_cases hac : a < c
            · simp [charListLt, hac]
            · by_cases hca : c < a
              · simp [charListLt, hac, hca] at h2
              · have haceq : a = c := le_antisymm (not_lt.mp hca) (not_lt.mp hac)
                subst haceq
                rw [charListLt, if_neg hac, if_neg hca] at h2
                rw [charListLt, if_neg hac, if_neg hca]
                exact ih h1 h2

theorem charListLt_total : ∀ (as bs : List Char),
    charListLt as bs = true ∨ charListLt bs as = true ∨ as = bs := by
  intro as
  induction as with
  | nil =>
    intro bs
    cases bs with
    | nil => right; right; rfl
    | cons b bt => left; simp [charListLt]
  | cons a at2 ih =>
    intro bs
    cases bs with
    | nil => right; left; simp [charListLt]
    | cons b bt =>
      rcases lt_trichotomy a b with h | h | h
      · left; simp [charListLt, h]
      · subst h
        rcases ih bt with h1 | h1 | h1
        · left; simp [charListLt, lt_irrefl, h1]
        · right; left; simp [charListLt, lt_irrefl, h1]
        · right; right; rw [h1]
      · right; left; simp [charListLt, h]

theorem dateLt_trans {a b c : String} (h1 : dateLt a b = true) (h2 : dateLt b c = true) :
    dateLt a c = true :=
  charListLt_trans h1 h2

theorem dateLt_total (a b : String) : dateLt a b = true ∨ dateLt b a = true ∨ a = b := by
  rcases charListLt_total a.data b.data with h | h | h
  · exact Or.inl h
  · exact Or.inr (Or.inl h)
  · refine Or.inr (Or.inr ?_)
    cases a
    cases b
    exact congrArg String.mk h

theorem workoutBefore_iff {a b : Workout} :
    workoutBefore a b = true ↔
      (dateLt b.workout_date a.workout_date = true ∨
        (a.workout_date = b.workout_date ∧ b.created_at ≤ a.created_at)) := by
  simp [workoutBefore]

theorem workoutBefore_trans {a b c : Workout} (h1 : workoutBefore a b = true)
    (h2 : workoutBefore b c = true) : workoutBefore a c = true := by
  rw [workoutBefore_iff] at h1 h2 ⊢
  rcases h1 with h1 | ⟨h1e, h1c⟩
  · rcases h2 with h2 | ⟨h2e, h2c⟩
    · exact Or.inl (dateLt_trans h2 h1)
    · left; rw [← h2e]; exact h1
  · rcases h2 with h2 | ⟨h2e, h2c⟩
    · left; rw [h1e]; exact h2
    · exact Or.inr ⟨h1e.trans h2e, le_trans h2c h1c⟩

theorem workoutBefore_total (a b : Workout) :
    workoutBefore a b = true ∨ workoutBefore b a = true := by
  rcases dateLt_total a.workout_date b.workout_date with h | h | h
  · right; rw [workoutBefore_iff]; exact Or.inl h
  · left; rw [workoutBefore_iff]; exact Or.inl h
  · rcases Nat.le_total a.created_at b.created_at with hc | hc
    · right; rw [workoutBefore_iff]; exact Or.inr ⟨h.symm, hc⟩
    · left; rw [workoutBefore_iff]; exact Or.inr ⟨h, hc⟩

theorem insertWorkout_perm (a : Workout) (l : List Workout) :
    List.Perm (insertWorkout a l) (a :: l) := by
  induction l with
  | nil => exact List.Perm.refl _
  | cons b t ih =>
    by_cases h : workoutBefore a b = true
    · simp [insertWorkout, h]
    · rw [show insertWorkout a (b :: t) = b :: insertWorkout a t from by
        simp [insertWorkout, h]]
      exact (ih.cons b).trans (List.Perm.swap a b t)

theorem sortWorkouts_perm (l : List Workout) : List.Perm (sortWorkouts l) l := by
  induction l with
  | nil => exact List.Perm.refl _
  | cons a t ih => exact (insertWorkout_perm a (sortWorkouts t)).trans (ih.cons a)

theorem insertWorkout_pairwise {a : Workout} {l : List Workout}
    (hl : l.Pairwise (fun x y => workoutBefore x y = true)) :
    (insertWorkout a l).Pairwise (fun x y => workoutBefore x y = true) := by
  induction l with
  | nil => simp [insertWorkout]
  | cons b t ih =>
    rw [List.pairwise_cons] at hl
    obtain ⟨hb, ht⟩ := hl
    by_cases hab : workoutBefore a b = true
    · rw [show insertWorkout a (b :: t) = a :: b :: t from by simp [insertWorkout, hab]]
      rw [List.pairwise_cons]
      refine ⟨?_, List.pairwise_cons.mpr ⟨hb, ht⟩⟩
      intro x hx
      rcases List.mem_cons.mp hx with rfl | hx
      · exact hab
      · exact workoutBefore_trans hab (hb x hx)
    · rw [show insertWorkout a (b :: t) = b :: insertWorkout a t from by
        simp [insertWorkout, hab]]
      rw [List.pairwise_cons]
      refine ⟨?_, ih ht⟩
      intro x hx
      have hx2 : x ∈ a :: t := (insertWorkout_perm a t).mem_iff.mp hx
      rcases List.mem_cons.mp hx2 with rfl | hx2
      · rcases workoutBefore_total b x with h | h
        · exact h
        · exact absurd h hab
      · exact hb x hx2

theorem sortWorkouts_pairwise (l : List Workout) :
    (sortWorkouts l).Pairwise (fun x y => workoutBefore x y = true) := by
  induction l with
  | nil => simp [sortWorkouts]
  | cons a t ih => exact insertWorkout_pairwise ih

theorem orZero_eq (n : Nat) : orZero n = n := by
  unfold orZero
  split
  · omega
  · rfl

theorem map_workout_items (db : DB) (l : List Workout) :
    (l.map (fun w =>
      ({ workout := w
         exercise_count := orZero (db.exercises.filter
           (fun e => e.workout_id == w.id)).length } : WorkoutListItem))).map
      (fun it => it.workout) = l := by
  induction l with
  | nil => rfl
  | cons a t ih => simp [ih]

theorem map_workout_counts (db : DB) (l : List Workout) :
    ((l.map (fun w =>
      ({ workout := w
         exercise_count := orZero (db.exercises.filter
           (fun e => e.workout_id == w.id)).length } : WorkoutListItem))).map
      (fun it => it.exercise_count)) =
    ((l.map (fun w =>
      ({ workout := w
         exercise_count := orZero (db.exercises.filter
           (fun e => e.workout_id == w.id)).length } : WorkoutListItem))).map
      (fun it => (db.exercises.filter (fun e => e.workout_id == it.workout.id)).length)) := by
  induction l with
  | nil => rfl
  | cons a t ih => simp [ih, orZero_eq]

/-! ## Claim theorems -/

/-- Claim C2: for every request to a protected route the auth middleware is a
four-branch chain — absent header → 401 authentication-required; no second
space-separated token segment → 401 format error; identity service reports
an error or resolves no user → 401 invalid-token; identity-service call
throws → 500; otherwise the resolved user is attached and the handler
runs. -/
theorem auth_middleware_branches (header : Option String) (svc : String → IdLookup) :
    (header = none → authenticateUser header svc = .reject 401 "No token provided") ∧
    (∀ h, header = some h → h ≠ "" → tokenOf h = "" →
      authenticateUser header svc = .reject 401 "Invalid authorization format") ∧
    (∀ h e u, header = some h → h ≠ "" → tokenOf h ≠ "" →
      svc (tokenOf h) = .returned e u → e = true ∨ u = none →
      authenticateUser header svc = .reject 401 "Invalid token") ∧
    (∀ h, header = some h → h ≠ "" → tokenOf h ≠ "" → svc (tokenOf h) = .threw →
      authenticateUser header svc = .reject 500 "Authentication failed") ∧
    (∀ h uid, header = some h → h ≠ "" → tokenOf h ≠ "" →
      svc (tokenOf h) = .returned false (some uid) →
      authenticateUser header svc = .authed uid (tokenOf h)) := by
  refine ⟨?_, ?_, ?_, ?_, ?_⟩
  · rintro rfl; rfl
  · rintro h rfl hne htok
    simp [authenticateUser, hne, htok]
  · rintro h e u rfl hne htok hsvc hcase
    rcases hcase with rfl | rfl
    · simp [authenticateUser, hne, htok, hsvc]
    · cases e <;> simp [authenticateUser, hne, htok, hsvc]
  · rintro h rfl hne htok hsvc
    simp [authenticateUser, hne, htok, hsvc]
  · rintro h uid rfl hne htok hsvc
    simp [authenticateUser, hne, htok, hsvc]

/-- Claim C2 witness: each of the five branches at a concrete header and
identity-service behavior. -/
theorem auth_middleware_branches_witness :
    authenticateUser none (fun _ => .threw) = .reject 401 "No token provided" ∧
    authenticateUser (some "Bearerabc") (fun _ => .threw) =
      .reject 401 "Invalid authorization format" ∧
    authenticateUser (some "Bearer bad") (fun _ => .returned true none) =
      .reject 401 "Invalid token" ∧
    authenticateUser (some "Bearer boom") (fun _ => .threw) =
      .reject 500 "Authentication failed" ∧
    authenticateUser (some "Bearer tok123") (fun _ => .returned false (some 7)) =
      .authed 7 "tok123" := by
  refine ⟨?_, ?_, ?_, ?_, ?_⟩
  · exact (auth_middleware_branches none (fun _ => .threw)).1 rfl
  · exact (auth_middleware_branches (some "Bearerabc") (fun _ => .threw)).2.1
      "Bearerabc" rfl (by decide) (by decide)
  · exact (auth_middleware_branches (some "Bearer bad") (fun _ => .returned true none)).2.2.1
      "Bearer bad" true none rfl (by decide) (by decide) rfl (Or.inl rfl)
  · exact (auth_middleware_branches (some "Bearer boom") (fun _ => .threw)).2.2.2.1
      "Bearer boom" rfl (by decide) (by decide) rfl
  · have h := (auth_middleware_branches (some "Bearer tok123")
      (fun _ => .returned false (some 7))).2.2.2.2 "Bearer tok123" 7 rfl
      (by decide) (by decide) rfl
    rwa [show tokenOf "Bearer tok123" = "tok123" from by decide] at h

/-- Claim C10: the middleware never checks the scheme keyword — whatever the
first segment is, the second space-separated segment is the token sent to the
identity service, and a single-segment header (no space) yields 401 with the
format error. -/
theorem auth_scheme_not_checked (h t : String) (svc : String → IdLookup) :
    (∀ uid, h ≠ "" → tokenOf h = t → t ≠ "" → svc t = .returned false (some uid) →
      authenticateUser (some h) svc = .authed uid t) ∧
    (h ≠ "" → ' ' ∉ h.data →
      authenticateUser (some h) svc = .reject 401 "Invalid authorization format") := by
  constructor
  · rintro uid hne rfl htok hsvc
    simp [authenticateUser, hne, htok, hsvc]
  · intro hne hns
    simp [authenticateUser, hne, tokenOf_no_space hns]

/-- Claim C10 witness: a header with scheme `Basic` is verified with token
`xyz`, and a space-free header is rejected with the format error. -/
theorem auth_scheme_not_checked_witness :
    authenticateUser (some "Basic xyz") (fun _ => .returned false (some 7)) =
      .authed 7 "xyz" ∧
    authenticateUser (some "xyzonly") (fun _ => .returned false (some 7)) =
      .reject 401 "Invalid authorization format" := by
  constructor
  · exact (auth_scheme_not_checked "Basic xyz" "xyz" (fun _ => .returned false (some 7))).1
      7 (by decide) (by decide) (by decide) rfl
  · exact (auth_scheme_not_checked "xyzonly" "" (fun _ => .returned false (some 7))).2
      (by decide) (by decide)

/-- Claim C3: GET /api/workouts returns exactly the caller's workouts
(a permutation of the rows filtered by the caller's user id), ordered by
workout_date descending with ties broken by created_at descending, and each
item's exercise_count equals the actual number of exercise rows whose
workout_id is that workout (including 0). -/
theorem list_workouts_spec (db : DB) (uid : Nat) :
    ∃ items : List WorkoutListItem,
      listWorkouts db uid = .ok 200 items ∧
      List.Perm (items.map (fun it => it.workout))
        (db.workouts.filter (fun w => w.user_id == uid)) ∧
      items.Pairwise (fun x y =>
        dateLt y.workout.workout_date x.workout.workout_date = true ∨
          (x.workout.workout_date = y.workout.workout_date ∧
            y.workout.created_at ≤ x.workout.created_at)) ∧
      items.map (fun it => it.exercise_count) =
        items.map (fun it =>
          (db.exercises.filter (fun e => e.workout_id == it.workout.id)).length) := by
  refine ⟨_, rfl, ?_, ?_, ?_⟩
  · rw [map_workout_items]
    exact sortWorkouts_perm _
  · rw [List.pairwise_map]
    exact (sortWorkouts_pairwise _).imp (fun h => workoutBefore_iff.mp h)
  · exact map_workout_counts db _

/-- Claim C6: GET /api/workouts/:id answers 404 when no workout with that id
owned by the caller exists, and 200 with the workout and its nested
exercises when one does. -/
theorem get_workout_spec (db : DB) (uid wid : Nat) :
    ((∀ w ∈ db.workouts, ¬(w.id = wid ∧ w.user_id = uid)) →
      getWorkout db uid wid = .err 404 "Workout not found") ∧
    (∀ w, db.workouts.filter (fun x => x.id == wid && x.user_id == uid) = [w] →
      getWorkout db uid wid =
        .ok 200 ⟨w, db.exercises.filter (fun e => e.workout_id == w.id)⟩) := by
  constructor
  · intro hnone
    simp [getWorkout, ownedFilter_eq_nil hnone]
  · intro w hw
    simp [getWorkout, hw]

/-- Claim C6 witness: the owner gets the workout with its exercise; another
caller gets 404. -/
theorem get_workout_spec_witness :
    getWorkout dbFix 1 1 =
      .ok 200 ⟨⟨1, 1, "Leg Day", "2024-01-01", none, 0⟩,
        [⟨10, 1, 1, .str "Squat", .val 3, .val 10, .val 100, 0⟩]⟩ ∧
    getWorkout dbFix 2 1 = .err 404 "Workout not found" := by
  constructor
  · exact (get_workout_spec dbFix 1 1).2 ⟨1, 1, "Leg Day", "2024-01-01", none, 0⟩ (by decide)
  · exact (get_workout_spec dbFix 2 1).1 (by decide)

/-- Claim C7 counterexample: a body whose `name` is present (the empty
string) together with a present `workout_date` is rejected with 400 and
nothing is persisted, contradicting the claim that whenever both fields are
present the workout is persisted and returned with 201. -/
theorem create_workout_present_empty_rejected :
    createWorkout ⟨[], []⟩ 1 ⟨some "", some "2024-01-01", none⟩ 5 0
      = (.err 400 "Name and date are required", ⟨[], []⟩) := by decide

/-- Claim C7 (amended): a body with a missing-or-empty (falsy) `name` or
`workout_date` is answered 400 with the store untouched; with both fields
present and nonempty the workout is persisted with the caller as owner
(notes stored as `notes || null`) and returned with 201. -/
theorem create_workout_validation (db : DB) (uid : Nat) (body : WorkoutBody) (newId now : Nat) :
    ((falsyOpt body.name || falsyOpt body.workout_date) = true →
      createWorkout db uid body newId now = (.err 400 "Name and date are required", db)) ∧
    (∀ nm dt, body.name = some nm → nm ≠ "" → body.workout_date = some dt → dt ≠ "" →
      createWorkout db uid body newId now =
        (.ok 201 ⟨newId, uid, nm, dt, jsNotes body.notes, now⟩,
         { db with workouts := db.workouts ++ [⟨newId, uid, nm, dt, jsNotes body.notes, now⟩] })) := by
  constructor
  · intro hfal
    simp [createWorkout, hfal]
  · intro nm dt hnm hne hdt hde
    have h1 : falsyOpt (some nm) = false := by simpa [falsyOpt] using hne
    have h2 : falsyOpt (some dt) = false := by simpa [falsyOpt] using hde
    simp [createWorkout, hnm, hdt, h1, h2]

/-- Claim C7 witness: a missing name is rejected with 400 leaving the store
empty; a complete body is persisted and echoed with 201. -/
theorem create_workout_validation_witness :
    createWorkout ⟨[], []⟩ 1 ⟨none, some "2024-01-01", none⟩ 5 0
      = (.err 400 "Name and date are required", ⟨[], []⟩) ∧
    createWorkout ⟨[], []⟩ 1 ⟨some "Leg Day", some "2024-01-01", none⟩ 5 0
      = (.ok 201 ⟨5, 1, "Leg Day", "2024-01-01", none, 0⟩,
         ⟨[⟨5, 1, "Leg Day", "2024-01-01", none, 0⟩], []⟩) := by
  constructor
  · exact (create_workout_validation ⟨[], []⟩ 1 ⟨none, some "2024-01-01", none⟩ 5 0).1 (by decide)
  · exact (create_workout_validation ⟨[], []⟩ 1 ⟨some "Leg Day", some "2024-01-01", none⟩ 5 0).2
      "Leg Day" "2024-01-01" rfl (by decide) rfl (by decide)

/-- Claim C8: DELETE /api/workouts/:id always answers 200 with the same
success message (never 404); when no owned workout matches, the store is
unchanged; and deleting a second time changes nothing more. -/
theorem delete_workout_idempotent (db : DB) (uid wid : Nat) :
    (deleteWorkout db uid wid).1 = .ok 200 "Workout deleted successfully" ∧
    ((∀ w ∈ db.workouts, ¬(w.id = wid ∧ w.user_id = uid)) →
      (deleteWorkout db uid wid).2 = db) ∧
    (deleteWorkout (deleteWorkout db uid wid).2 uid wid).2 = (deleteWorkout db uid wid).2 := by
  refine ⟨rfl, fun hnone => deleteWorkout_noop hnone, ?_⟩
  apply deleteWorkout_noop
  intro w hw hc
  have hw2 : w ∈ db.workouts.filter (fun w => !(w.id == wid && w.user_id == uid)) := hw
  rw [List.mem_filter] at hw2
  have h2 := hw2.2
  simp [hc.1, hc.2] at h2

/-- Claim C8 witness: deleting an id that was never present leaves the
concrete store unchanged. -/
theorem delete_workout_idempotent_witness :
    (deleteWorkout dbFix 1 99).2 = dbFix :=
  (delete_workout_idempotent dbFix 1 99).2.1 (by decide)

/-- Claim C4: POST /api/workouts/:workoutId/exercises with a body passing
field validation answers 404 with nothing persisted when no workout with
that id owned by the caller exists, and otherwise persists the coerced
exercise (parseInt on sets/reps, parseFloat on weight) and returns it
with 201. -/
theorem create_exercise_checks_ownership (db : DB) (uid wid : Nat) (body : ExerciseBody)
    (newId now : Nat)
    (hname : truthy body.exercise_name = true) (hsets : truthy body.sets = true)
    (hreps : truthy body.reps = true) (hweight : body.weight ≠ JSValue.undefined) :
    ((∀ w ∈ db.workouts, ¬(w.id = wid ∧ w.user_id = uid)) →
      createExercise db uid wid body newId now = (.err 404 "Workout not found", db)) ∧
    ((∃ w ∈ db.workouts, w.id = wid ∧ w.user_id = uid) →
      createExercise db uid wid body newId now =
        (.ok 201 (coercedExercise body newId wid uid now),
         { db with exercises := db.exercises ++ [coercedExercise body newId wid uid now] })) := by
  have hval : ¬(truthy body.exercise_name = false ∨ truthy body.sets = false ∨
      truthy body.reps = false ∨ body.weight = JSValue.undefined) := by
    simp [hname, hsets, hreps, hweight]
  exact ⟨fun hnone => createExercise_notfound hval hnone,
    fun hex => createExercise_success hval hex⟩

/-- Claim C4 witness: creating against the owned workout 1 succeeds with the
coerced row; against the absent workout 2 it is 404 and the store is
untouched. -/
theorem create_exercise_checks_ownership_witness :
    createExercise dbFix 1 1 ⟨.str "Bench", .num (.val 3), .num (.val 8), .num (.val 100)⟩ 11 4 =
      (.ok 201 ⟨11, 1, 1, .str "Bench", .val 3, .val 8, .val 100, 4⟩,
       { dbFix with exercises := dbFix.exercises ++
          [⟨11, 1, 1, .str "Bench", .val 3, .val 8, .val 100, 4⟩] }) ∧
    createExercise dbFix 1 2 ⟨.str "Bench", .num (.val 3), .num (.val 8), .num (.val 100)⟩ 11 4 =
      (.err 404 "Workout not found", dbFix) := by
  constructor
  · have h := (create_exercise_checks_ownership dbFix 1 1
        ⟨.str "Bench", .num (.val 3), .num (.val 8), .num (.val 100)⟩ 11 4
        (by decide) (by decide) (by decide) (by decide)).2
      ⟨⟨1, 1, "Leg Day", "2024-01-01", none, 0⟩, by decide, rfl, rfl⟩
    rwa [show coercedExercise ⟨.str "Bench", .num (.val 3), .num (.val 8), .num (.val 100)⟩ 11 1 1 4
        = ⟨11, 1, 1, .str "Bench", .val 3, .val 8, .val 100, 4⟩ from by decide] at h
  · exact (create_exercise_checks_ownership dbFix 1 2
        ⟨.str "Bench", .num (.val 3), .num (.val 8), .num (.val 100)⟩ 11 4
        (by decide) (by decide) (by decide) (by decide)).1 (by decide)

/-- Claim C5: with the other fields truthy, a body with weight 0 passes
validation and, when the workout is owned, is persisted with weight 0;
a body with weight absent (undefined) is rejected with 400; and any weight
other than undefined — however falsy — passes validation (the outcome is
404 or 201, never the validation error). -/
theorem exercise_weight_zero_valid (db : DB) (uid wid : Nat) (body : ExerciseBody) (newId now : Nat)
    (hname : truthy body.exercise_name = true) (hsets : truthy body.sets = true)
    (hreps : truthy body.reps = true) :
    (body.weight = .num (.val 0) → (∃ w ∈ db.workouts, w.id = wid ∧ w.user_id = uid) →
      createExercise db uid wid body newId now =
        (.ok 201 (coercedExercise body newId wid uid now),
         { db with exercises := db.exercises ++ [coercedExercise body newId wid uid now] }) ∧
      (coercedExercise body newId wid uid now).weight = .val 0) ∧
    (body.weight = .undefined →
      createExercise db uid wid body newId now = (.err 400 "All fields are required", db)) ∧
    (body.weight ≠ .undefined →
      createExercise db uid wid body newId now = (.err 404 "Workout not found", db) ∨
      ∃ dbA, createExercise db uid wid body newId now =
        (.ok 201 (coercedExercise body newId wid uid now), dbA)) := by
  refine ⟨?_, ?_, ?_⟩
  · intro hw hex
    have hval : ¬(truthy body.exercise_name = false ∨ truthy body.sets = false ∨
        truthy body.reps = false ∨ body.weight = JSValue.undefined) := by
      simp [hname, hsets, hreps, hw]
    refine ⟨createExercise_success hval hex, ?_⟩
    simp [coercedExercise, hw, parseFloatJS]
  · intro hw
    simp [createExercise, hw]
  · intro hw
    have hval : ¬(truthy body.exercise_name = false ∨ truthy body.sets = false ∨
        truthy body.reps = false ∨ body.weight = JSValue.undefined) := by
      simp [hname, hsets, hreps, hw]
    cases hfil : db.workouts.filter (fun x => x.id == wid && x.user_id == uid) with
    | nil =>
      left
      apply createExercise_notfound hval
      rw [List.filter_eq_nil_iff] at hfil
      intro w hwmem hc
      exact hfil w hwmem (by simp [hc.1, hc.2])
    | cons a t =>
      right
      refine ⟨_, createExercise_success hval ?_⟩
      have ha : a ∈ db.workouts.filter (fun x => x.id == wid && x.user_id == uid) := by
        rw [hfil]; exact List.mem_cons_self a t
      rw [List.mem_filter] at ha
      obtain ⟨ham, hpred⟩ := ha
      rw [Bool.and_eq_true, beq_iff_eq, beq_iff_eq] at hpred
      exact ⟨a, ham, hpred⟩

/-- Claim C5 witness: weight 0 is persisted as 0; weight undefined is 400;
weight null is not a validation error. -/
theorem exercise_weight_zero_valid_witness :
    (createExercise dbFix 1 1 ⟨.str "Bench", .num (.val 3), .num (.val 8), .num (.val 0)⟩ 11 4 =
        (.ok 201 (coercedExercise ⟨.str "Bench", .num (.val 3), .num (.val 8), .num (.val 0)⟩ 11 1 1 4),
         { dbFix with exercises := dbFix.exercises ++
            [coercedExercise ⟨.str "Bench", .num (.val 3), .num (.val 8), .num (.val 0)⟩ 11 1 1 4] }) ∧
      (coercedExercise ⟨.str "Bench", .num (.val 3), .num (.val 8), .num (.val 0)⟩ 11 1 1 4).weight
        = .val 0) ∧
    createExercise dbFix 1 1 ⟨.str "Bench", .num (.val 3), .num (.val 8), .undefined⟩ 11 4 =
      (.err 400 "All fields are required", dbFix) ∧
    (createExercise dbFix 1 1 ⟨.str "Bench", .num (.val 3), .num (.val 8), .null⟩ 11 4 =
        (.err 404 "Workout not found", dbFix) ∨
      ∃ dbA, createExercise dbFix 1 1 ⟨.str "Bench", .num (.val 3), .num (.val 8), .null⟩ 11 4 =
        (.ok 201 (coercedExercise ⟨.str "Bench", .num (.val 3), .num (.val 8), .null⟩ 11 1 1 4), dbA)) := by
  refine ⟨?_, ?_, ?_⟩
  · exact (exercise_weight_zero_valid dbFix 1 1 _ 11 4 (by decide) (by decide) (by decide)).1 rfl
      ⟨⟨1, 1, "Leg Day", "2024-01-01", none, 0⟩, by decide, rfl, rfl⟩
  · exact (exercise_weight_zero_valid dbFix 1 1 _ 11 4 (by decide) (by decide) (by decide)).2.1 rfl
  · exact (exercise_weight_zero_valid dbFix 1 1 _ 11 4 (by decide) (by decide) (by decide)).2.2
      (by decide)

/-- Claim C9: PATCH /api/exercises/:id performs no body validation — the
response is always 200 (never 400), every row with the given id has its
exercise_name, sets, reps and weight unconditionally overwritten with the
parseInt/parseFloat coercions of the body fields, and an absent or
non-numeric numeric field is written as NaN. -/
theorem patch_exercise_no_validation (db : DB) (uid eid : Nat) (body : ExerciseBody) :
    (∃ d, (patchExercise db uid eid body).1 = .ok 200 d) ∧
    (patchExercise db uid eid body).2.exercises =
      db.exercises.map (fun e => if e.id = eid then overwriteExercise body e else e) ∧
    (∀ e, (overwriteExercise body e).exercise_name = body.exercise_name ∧
      (overwriteExercise body e).sets = parseIntJS body.sets ∧
      (overwriteExercise body e).reps = parseIntJS body.reps ∧
      (overwriteExercise body e).weight = parseFloatJS body.weight) ∧
    parseIntJS .undefined = .nan ∧ parseFloatJS .undefined = .nan ∧
    parseIntJS (.str "three") = .nan ∧ parseFloatJS (.str "three") = .nan :=
  ⟨⟨_, rfl⟩, rfl, fun _ => ⟨rfl, rfl, rfl, rfl⟩, rfl, rfl, by decide, by decide⟩

/-- Claim C1, at the failing input: exercise 5 is owned by user 1, yet a
PATCH issued by authenticated user 2 overwrites the row and a DELETE issued
by user 2 removes it — the queries filter by exercise id only, with no
equality filter on the caller's user id. -/
theorem exercise_routes_ignore_owner :
    exVictim.user_id = 1 ∧
    (patchExercise ⟨[], [exVictim]⟩ 2 5 bodyAttack).2.exercises =
      [⟨5, 9, 1, .str "Hacked", .val 1, .val 1, .val 1, 0⟩] ∧
    (patchExercise ⟨[], [exVictim]⟩ 2 5 bodyAttack).1 =
      .ok 200 (some ⟨5, 9, 1, .str "Hacked", .val 1, .val 1, .val 1, 0⟩) ∧
    (deleteExercise ⟨[], [exVictim]⟩ 2 5).2.exercises = [] ∧
    (deleteExercise ⟨[], [exVictim]⟩ 2 5).1 = .ok 200 "Exercise deleted successfully" := by
  decide

end GymManager
